import Mathlib

/-!
Verification of the idempotent provisioning / header-regeneration logic of
the ServiceFramework repository, shallowly embedded from
src/generate_specs.py (SpecificationGenerator) and
src/enterprise-service-framework/scripts/init-dynamodb.py.
-/

namespace ServiceFramework

/-! ### Python string primitives used by the embedded code -/

/-- The whitespace characters removed by Python str.strip for ASCII input. -/
def pyIsSpace (c : Char) : Bool :=
  c = ' ' || c = '\t' || c = '\n' || c = '\r' || c = '\x0b' || c = '\x0c'

/-- Python str.strip on ASCII strings: drop whitespace from both ends. -/
def pyStrip (s : String) : String :=
  String.mk (((s.data.dropWhile pyIsSpace).reverse.dropWhile pyIsSpace).reverse)

/-- Split a character list into lines, each keeping its trailing newline,
with a final chunk without a newline kept as a line (Python readlines). -/
def splitKeepNl : List Char → List Char → List (List Char)
  | [], acc => if acc.isEmpty then [] else [acc.reverse]
  | c :: cs, acc =>
    if c = '\n' then (acc.reverse ++ [c]) :: splitKeepNl cs []
    else splitKeepNl cs (c :: acc)

/-- Python file.readlines on a file whose full contents is the string. -/
def pyReadlines (s : String) : List String :=
  (splitKeepNl s.data []).map String.mk

/-! ### HeaderedFileWriter: SpecificationGenerator._write_file -/

/-- The metadata header block written by _write_file:
three-dash marker, Generated timestamp line, Generator identity line,
closing marker, blank line. -/
def metadataBlock (ts : String) : String :=
  "---\nGenerated: " ++ ts ++
    "\nGenerator: Technical Specification Generator v1.0\n---\n\n"

/-- The loop body of the header scan: index of the first line that strips
to the three-dash marker (the Python for i, line in enumerate with break). -/
def findMarkerIdx : List String → Option Nat
  | [] => none
  | l :: ls =>
    if pyStrip l = "---" then some 0
    else (findMarkerIdx ls).map (· + 1)

/-- The header_end scan of _write_file: if the file has more than two lines
and its first line strips to the three-dash marker, search all later lines
for the first one that strips to the marker; header_end is that index plus
two (the Python i + 2, an index into the whole line list). -/
def findHeaderEnd (lines : List String) : Option Nat :=
  if 2 < lines.length ∧ pyStrip (lines.headD "") = "---" then
    match findMarkerIdx (lines.drop 1) with
    | some i => some (i + 2)
    | none => none
  else none

/-- The content actually written after the header by _write_file when the
file already exists with the given lines: if a header was found and the
remainder after it is not whitespace-only, the remainder is kept and the
fresh content is dropped; otherwise the fresh content is written. -/
def stripHeaderLines (lines : List String) (fresh : String) : String :=
  match findHeaderEnd lines with
  | some he =>
    let contentWithoutHeader := String.join (lines.drop he)
    if pyStrip contentWithoutHeader ≠ "" then contentWithoutHeader else fresh
  | none => fresh

/-- SpecificationGenerator._write_file as a function from the optional
pre-existing file contents, the current timestamp and the fresh content to
the full contents written to the file. -/
def writeFileContent (existing : Option String) (ts fresh : String) : String :=
  match existing with
  | none => metadataBlock ts ++ fresh
  | some old => metadataBlock ts ++ stripHeaderLines (pyReadlines old) fresh

/-! ### The filesystem side of the writer

Paths are lists of components. `open(filename, 'w')` fails with
FileNotFoundError when the parent directory of the path does not exist;
`Path.mkdir(parents=True, exist_ok=True)` creates a directory together with
all its ancestors. SpecificationGenerator.__init__ is the only place that
creates directories; _write_file only opens the file. -/

structure FileSystem where
  dirs : List (List String)
  files : List (List String × String)
deriving DecidableEq

/-- Path.mkdir with parents=True, exist_ok=True: record the directory and
every ancestor prefix (including the filesystem root, the empty path). -/
def mkdirParents (fs : FileSystem) (d : List String) : FileSystem :=
  ⟨(List.range (d.length + 1)).map (fun k => d.take k) ++ fs.dirs, fs.files⟩

/-- SpecificationGenerator.__init__: store the output directory and create
it (with parents) on the spot. _write_file performs no directory creation. -/
def generatorInit (outputDir : List String) (fs : FileSystem) : FileSystem :=
  mkdirParents fs outputDir

/-- SpecificationGenerator._write_file including its filesystem effects:
read the existing file at the path if any, then open the path for writing,
which fails with FileNotFoundError when the parent directory is absent,
and otherwise fully overwrite the file with header plus content. -/
def writeFileFS (fs : FileSystem) (path : List String) (ts fresh : String) :
    Except String FileSystem :=
  if path.dropLast ∈ fs.dirs then
    let existing := fs.files.lookup path
    .ok ⟨fs.dirs,
      (path, writeFileContent existing ts fresh) ::
        fs.files.filter (fun p => p.1 ≠ path)⟩
  else
    .error "FileNotFoundError"

/-! ### DocumentGenerator: SpecificationGenerator.generate_all

generate_all calls the eight generate_* methods one after the other with no
exception handling; each generate_* renders one fixed filename through
_write_file. An exception raised while rendering one document therefore
propagates immediately and the remaining documents are not attempted. -/

/-- The filenames rendered by generate_all, in its fixed call order. -/
def docFilenames : List String :=
  ["authentication-requirements.md",
   "authorization-requirements.md",
   "monitoring-requirements.md",
   "deployment-architectures.md",
   "disaster-recovery.md",
   "api-specifications.md",
   "security-requirements.md",
   "performance-requirements.md"]

/-- Render a list of documents in order, stopping at the first one whose
write raises (modelled by the predicate failing). Returns the documents
successfully written, in order, and the document whose exception aborted
the batch, if any. -/
def renderSeq (failing : String → Bool) : List String → List String × Option String
  | [] => ([], none)
  | d :: ds =>
    if failing d then ([], some d)
    else
      let r := renderSeq failing ds
      (d :: r.1, r.2)

/-- SpecificationGenerator.generate_all: sequential rendering of the whole
catalog with no per-document exception handling. -/
def generate_all (failing : String → Bool) : List String × Option String :=
  renderSeq failing docFilenames

/-! ### ResourceProvisioner: init-dynamodb.py

The boto3 calls are modelled by their observable responses. A Python
exception is either a botocore ClientError carrying an error code, or any
other exception. -/

inductive PyError where
  | clientError (code : String) (msg : String)
  | exc (msg : String)
deriving DecidableEq

/-- The observable result of create_table: which success message was
printed (created vs already exists), or False returned, or an uncaught
exception. -/
inductive CreateResult where
  | created
  | alreadyExists
  | failedMsg (msg : String)
deriving DecidableEq

/-- check_dynamodb_running: True when list_tables succeeds; every
exception whatsoever is caught and turned into False. -/
def check_dynamodb_running (r : Except PyError Unit) : Bool :=
  match r with
  | .ok _ => true
  | .error _ => false

/-- table_exists: True when table.load() succeeds; a ClientError with code
ResourceNotFoundException gives False; any other ClientError is re-raised,
and a non-ClientError exception is never caught. -/
def table_exists (r : Except PyError Unit) : Except PyError Bool :=
  match r with
  | .ok _ => .ok true
  | .error (.clientError c m) =>
    if c = "ResourceNotFoundException" then .ok false
    else .error (.clientError c m)
  | .error (.exc m) => .error (.exc m)

/-- create_table: success prints created and returns True; a ClientError
with code ResourceInUseException prints already-exists and returns True;
any other ClientError prints the error and returns False; a
non-ClientError exception is not caught. -/
def create_table (r : Except PyError Unit) : Except PyError CreateResult :=
  match r with
  | .ok _ => .ok .created
  | .error (.clientError c m) =>
    if c = "ResourceInUseException" then .ok .alreadyExists
    else .ok (.failedMsg m)
  | .error (.exc m) => .error (.exc m)

/-- The backend a single invocation sees: the response of list_tables, the
current existence of the table, and optional injected faults standing for
errors (or races with concurrent provisioners) on the describe and create
calls. -/
structure Backend where
  listResp : Except PyError Unit
  tableExists : Bool
  describeFault : Option PyError
  createFault : Option PyError

/-- The response of table.load() against the backend. -/
def describeResp (b : Backend) : Except PyError Unit :=
  match b.describeFault with
  | some e => .error e
  | none =>
    if b.tableExists then .ok ()
    else .error (.clientError "ResourceNotFoundException" "Requested resource not found")

/-- The response of dynamodb.create_table against the backend, together
with the backend state afterwards. -/
def createResp (b : Backend) : Except PyError Unit × Backend :=
  match b.createFault with
  | some e => (.error e, b)
  | none =>
    if b.tableExists then (.error (.clientError "ResourceInUseException" "Table already exists"), b)
    else (.ok (), { b with tableExists := true })

/-- The outcome of one invocation of the provisioning script. -/
inductive FailReason where
  | serviceUnreachable
  | creationFailure (msg : String)
  | uncaught (e : PyError)
deriving DecidableEq

inductive Outcome where
  | created
  | alreadyExists
  | failed (reason : FailReason)
deriving DecidableEq

/-- main of init-dynamodb.py as ensure(descriptor): liveness check first
(exit 1 on failure), then table_exists (an uncaught exception reaches the
top-level handler and exits 1), then create_table (False exits 1, an
uncaught exception exits 1). -/
def ensure (b : Backend) : Outcome × Backend :=
  if check_dynamodb_running b.listResp = false then (.failed .serviceUnreachable, b)
  else
    match table_exists (describeResp b) with
    | .ok true => (.alreadyExists, b)
    | .ok false =>
      let p := createResp b
      match create_table p.1 with
      | .ok .created => (.created, p.2)
      | .ok .alreadyExists => (.alreadyExists, p.2)
      | .ok (.failedMsg m) => (.failed (.creationFailure m), p.2)
      | .error e => (.failed (.uncaught e), p.2)
    | .error e => (.failed (.uncaught e), b)

/-- The process exit status of one invocation: 0 on Created or
AlreadyExists, 1 on any failure. -/
def mainExit (b : Backend) : Nat :=
  match (ensure b).1 with
  | .failed _ => 1
  | _ => 0

/-! ### Sanity checks of the embedding on concrete inputs -/

example : pyReadlines "---\na\n---\nB" = ["---\n", "a\n", "---\n", "B"] := by decide

example : pyStrip "  --- \n" = "---" := by decide

example : findHeaderEnd ["---\n", "a\n", "---\n", "B"] = some 3 := by decide

example : pyReadlines "" = [] := by decide

/-! ### Helper lemmas -/

/-- When the first line does not strip to the marker, no header is found. -/
theorem findHeaderEnd_eq_none_of_no_marker (lines : List String)
    (h : pyStrip (lines.headD "") ≠ "---") : findHeaderEnd lines = none := by
  unfold findHeaderEnd
  rw [if_neg]
  intro hc
  exact h hc.2

/-- stripHeaderLines falls back to the fresh content when the first line
does not strip to the marker. -/
theorem stripHeaderLines_of_no_marker (lines : List String) (fresh : String)
    (h : pyStrip (lines.headD "") ≠ "---") : stripHeaderLines lines fresh = fresh := by
  unfold stripHeaderLines
  rw [findHeaderEnd_eq_none_of_no_marker lines h]

/-- Looking up the path just written returns the written content. -/
theorem lookup_write_head (path : List String) (v : String)
    (rest : List (List String × String)) :
    ((path, v) :: rest).lookup path = some v := by
  simp [List.lookup]

/-! ### Claim C8: first write on a fresh path -/

/-- C8: a write on a path with no pre-existing file (in a filesystem where
the parent directory exists) succeeds with no error, and the resulting
file is the freshly computed header block — the three-dash marker, the
Generated line with the current timestamp, the fixed generator identity
line, the closing marker and a blank line — followed by exactly the body. -/
theorem writeFileFS_first_write (fs : FileSystem) (path : List String) (ts body : String)
    (hdir : path.dropLast ∈ fs.dirs) (hnew : fs.files.lookup path = none) :
    ∃ fs2, writeFileFS fs path ts body = .ok fs2 ∧
      fs2.files.lookup path =
        some ("---\nGenerated: " ++ ts ++
          "\nGenerator: Technical Specification Generator v1.0\n---\n\n" ++ body) := by
  have hstep : writeFileFS fs path ts body =
      .ok ⟨fs.dirs, (path, writeFileContent (fs.files.lookup path) ts body) ::
        fs.files.filter (fun p => p.1 ≠ path)⟩ := by
    unfold writeFileFS
    rw [if_pos hdir]
  refine ⟨_, hstep, ?_⟩
  show ((path, writeFileContent (fs.files.lookup path) ts body) ::
      fs.files.filter (fun p => p.1 ≠ path)).lookup path = _
  rw [hnew, lookup_write_head]
  rfl

/-- Witness for C8 at a concrete filesystem containing only the root
directory and no files. -/
theorem writeFileFS_first_write_witness :
    ∃ fs2, writeFileFS ⟨[[]], []⟩ ["f.md"] "2024-01-01 00:00:00" "BODY" = .ok fs2 ∧
      fs2.files.lookup ["f.md"] =
        some ("---\nGenerated: " ++ "2024-01-01 00:00:00" ++
          "\nGenerator: Technical Specification Generator v1.0\n---\n\n" ++ "BODY") :=
  writeFileFS_first_write ⟨[[]], []⟩ ["f.md"] "2024-01-01 00:00:00" "BODY"
    (by decide) rfl

/-! ### Claim C10: whitespace-only remainder after a header block -/

/-- C10: when the existing file starts with a line stripping to the start
marker, an end-marker line is found among the later lines, and the content
after the end marker is empty or whitespace-only, the write produces the
fresh header followed by exactly the fresh body. -/
theorem writeFileContent_ws_remainder (old ts fresh : String) (i : Nat)
    (hfirst : pyStrip ((pyReadlines old).headD "") = "---")
    (hfind : findMarkerIdx ((pyReadlines old).drop 1) = some i)
    (hws : pyStrip (String.join ((pyReadlines old).drop (i + 2))) = "") :
    writeFileContent (some old) ts fresh = metadataBlock ts ++ fresh := by
  show metadataBlock ts ++ stripHeaderLines (pyReadlines old) fresh = _
  congr 1
  unfold stripHeaderLines findHeaderEnd
  by_cases hlen : 2 < (pyReadlines old).length
  · rw [if_pos ⟨hlen, hfirst⟩, hfind]
    simp [hws]
  · rw [if_neg]
    intro hc
    exact hlen hc.1

/-- Witness for C10: a file holding one header block followed by a blank
line only. -/
theorem writeFileContent_ws_remainder_witness :
    writeFileContent (some "---\nGenerated: x\n---\n\n") "TS" "BODY" =
      metadataBlock "TS" ++ "BODY" :=
  writeFileContent_ws_remainder "---\nGenerated: x\n---\n\n" "TS" "BODY" 1
    (by decide) (by decide) (by decide)

/-! ### Claim C1: what happens to an existing non-empty body -/

/-- C1 counterexample: on a file holding a header block and the non-empty
body OLD, write with fresh body NEW does not produce header + NEW — it
produces header + OLD, keeping the old body and discarding the fresh one. -/
theorem writeFileContent_keeps_old_body_cex :
    writeFileContent (some "---\nG: x\n---\nOLD\n") "TS" "NEW" ≠
      metadataBlock "TS" ++ "NEW" ∧
    writeFileContent (some "---\nG: x\n---\nOLD\n") "TS" "NEW" =
      metadataBlock "TS" ++ "OLD\n" := by
  constructor
  · decide
  · decide

/-- C1 amended: when the existing file has a header block (header_end
found) and the content after it is not whitespace-only, the write keeps
that old effective body and discards the fresh body: the result is one
fresh header block followed by exactly the old effective body. -/
theorem writeFileContent_preserves_old_body (old ts fresh : String) (he : Nat)
    (hfind : findHeaderEnd (pyReadlines old) = some he)
    (hne : pyStrip (String.join ((pyReadlines old).drop he)) ≠ "") :
    writeFileContent (some old) ts fresh =
      metadataBlock ts ++ String.join ((pyReadlines old).drop he) := by
  show metadataBlock ts ++ stripHeaderLines (pyReadlines old) fresh = _
  congr 1
  unfold stripHeaderLines
  rw [hfind]
  simp [hne]

/-- Witness for the amended C1. -/
theorem writeFileContent_preserves_old_body_witness :
    writeFileContent (some "---\nG: x\n---\nOLD\n") "2024-01-01" "NEW" =
      metadataBlock "2024-01-01" ++
        String.join ((pyReadlines "---\nG: x\n---\nOLD\n").drop 3) :=
  writeFileContent_preserves_old_body "---\nG: x\n---\nOLD\n" "2024-01-01" "NEW" 3
    (by decide) (by decide)

/-! ### Claim C4: how far the end-marker scan reaches -/

/-- C4 counterexample: in a file whose end marker first occurs on line 10
(far beyond the header-sized prefix), the scan still finds it — header_end
is 10 — and the write outputs the content after that late marker, which is
neither the fresh body nor the entire old content. -/
theorem findHeaderEnd_scan_unbounded_cex :
    findHeaderEnd (pyReadlines "---\na\nb\nc\nd\ne\nf\ng\nh\n---\nTAIL\n") = some 10 ∧
    writeFileContent (some "---\na\nb\nc\nd\ne\nf\ng\nh\n---\nTAIL\n") "TS" "FRESH" =
      metadataBlock "TS" ++ "TAIL\n" ∧
    ("TAIL\n" : String) ≠ "FRESH" ∧
    ("TAIL\n" : String) ≠ "---\na\nb\nc\nd\ne\nf\ng\nh\n---\nTAIL\n" := by
  refine ⟨by decide, by decide, by decide, by decide⟩

/-- The header-strip step when the first line strips to the marker: the
end-marker scan runs over the entire tail of the file, with no bound. -/
theorem stripHeaderLines_marker_first (lines : List String) (fresh : String)
    (h : pyStrip (lines.headD "") = "---") :
    stripHeaderLines lines fresh =
      match findMarkerIdx (lines.drop 1) with
      | some i =>
        if pyStrip (String.join (lines.drop (i + 2))) = "" then fresh
        else String.join (lines.drop (i + 2))
      | none => fresh := by
  unfold stripHeaderLines findHeaderEnd
  rcases lines with _ | ⟨a, rest⟩
  · exact absurd h (by decide)
  rcases rest with _ | ⟨b, rest2⟩
  · rw [if_neg (by intro hc; simp at hc)]
    rfl
  rcases rest2 with _ | ⟨c, t⟩
  · rw [if_neg (by intro hc; simp at hc)]
    by_cases hb : pyStrip b = "---"
    · rw [show findMarkerIdx ([a, b].drop 1) = some 0 by
        show findMarkerIdx [b] = some 0
        unfold findMarkerIdx
        rw [if_pos hb]]
      show fresh = if pyStrip (String.join (List.drop (0 + 2) [a, b])) = "" then fresh
        else String.join (List.drop (0 + 2) [a, b])
      rw [if_pos (show pyStrip (String.join (List.drop (0 + 2) [a, b])) = "" from rfl)]
    · rw [show findMarkerIdx ([a, b].drop 1) = none by
        show findMarkerIdx [b] = none
        unfold findMarkerIdx
        rw [if_neg hb]
        rfl]
  · rw [if_pos ⟨by simp, h⟩]
    cases hf : findMarkerIdx ((a :: b :: c :: t).drop 1) with
    | none => rfl
    | some i =>
      show (if pyStrip (String.join ((a :: b :: c :: t).drop (i + 2))) ≠ ""
          then String.join ((a :: b :: c :: t).drop (i + 2)) else fresh) =
        (if pyStrip (String.join ((a :: b :: c :: t).drop (i + 2))) = "" then fresh
          else String.join ((a :: b :: c :: t).drop (i + 2)))
      by_cases hws : pyStrip (String.join ((a :: b :: c :: t).drop (i + 2))) = ""
      · rw [if_neg (not_not_intro hws), if_pos hws]
      · rw [if_pos hws, if_neg hws]

/-- C4 amended: when the first line of the existing file strips to the
start marker, the end-marker scan runs over all remaining lines of the
file with no bound; if a marker line is found the effective body is
everything after it (kept when not whitespace-only, otherwise the fresh
body is written), and if no marker line exists anywhere the existing
content is ignored and the fresh body is written. -/
theorem writeFileContent_scan_all_lines (old ts fresh : String)
    (h : pyStrip ((pyReadlines old).headD "") = "---") :
    writeFileContent (some old) ts fresh =
      metadataBlock ts ++
        match findMarkerIdx ((pyReadlines old).drop 1) with
        | some i =>
          if pyStrip (String.join ((pyReadlines old).drop (i + 2))) = "" then fresh
          else String.join ((pyReadlines old).drop (i + 2))
        | none => fresh := by
  show metadataBlock ts ++ stripHeaderLines (pyReadlines old) fresh = _
  rw [stripHeaderLines_marker_first (pyReadlines old) fresh h]

/-- Witness for the amended C4 at the late-marker file. -/
theorem writeFileContent_scan_all_lines_witness :
    writeFileContent (some "---\na\nb\nc\nd\ne\nf\ng\nh\n---\nTAIL\n") "TS" "FRESH" =
      metadataBlock "TS" ++
        match findMarkerIdx ((pyReadlines "---\na\nb\nc\nd\ne\nf\ng\nh\n---\nTAIL\n").drop 1) with
        | some i =>
          if pyStrip (String.join ((pyReadlines "---\na\nb\nc\nd\ne\nf\ng\nh\n---\nTAIL\n").drop (i + 2))) = ""
            then "FRESH"
          else String.join ((pyReadlines "---\na\nb\nc\nd\ne\nf\ng\nh\n---\nTAIL\n").drop (i + 2))
        | none => "FRESH" :=
  writeFileContent_scan_all_lines "---\na\nb\nc\nd\ne\nf\ng\nh\n---\nTAIL\n" "TS" "FRESH"
    (by decide)

/-! ### Claim C7: existing content without the start marker -/

/-- C7 counterexample: a file whose content does not start with the start
marker (its first line is the marker preceded by a space) is nevertheless
treated as headered, because the code compares the stripped first line:
the old body KEEP is kept and the write does not produce header + NEW. -/
theorem writeFileContent_no_marker_cex :
    (" ---\nG: x\n---\nKEEP\n" : String).data.take 3 ≠ ("---" : String).data ∧
    writeFileContent (some " ---\nG: x\n---\nKEEP\n") "TS" "NEW" =
      metadataBlock "TS" ++ "KEEP\n" ∧
    writeFileContent (some " ---\nG: x\n---\nKEEP\n") "TS" "NEW" ≠
      metadataBlock "TS" ++ "NEW" := by
  refine ⟨by decide, by decide, by decide⟩

/-- C7 amended: when the first line of the existing file does not strip
(leading and trailing whitespace removed) to the start marker, the whole
prior content is discarded: the write succeeds and the resulting file is a
fresh header followed by exactly the body. -/
theorem writeFileFS_no_marker_fresh (fs : FileSystem) (path : List String)
    (old ts body : String)
    (hdir : path.dropLast ∈ fs.dirs)
    (hexist : fs.files.lookup path = some old)
    (hnomark : pyStrip ((pyReadlines old).headD "") ≠ "---") :
    ∃ fs2, writeFileFS fs path ts body = .ok fs2 ∧
      fs2.files.lookup path = some (metadataBlock ts ++ body) := by
  have hstep : writeFileFS fs path ts body =
      .ok ⟨fs.dirs, (path, writeFileContent (fs.files.lookup path) ts body) ::
        fs.files.filter (fun p => p.1 ≠ path)⟩ := by
    unfold writeFileFS
    rw [if_pos hdir]
  refine ⟨_, hstep, ?_⟩
  show ((path, writeFileContent (fs.files.lookup path) ts body) ::
      fs.files.filter (fun p => p.1 ≠ path)).lookup path = _
  rw [hexist, lookup_write_head]
  show some (metadataBlock ts ++ stripHeaderLines (pyReadlines old) body) = _
  rw [stripHeaderLines_of_no_marker (pyReadlines old) body hnomark]

/-- Witness for the amended C7: an existing file of plain text. -/
theorem writeFileFS_no_marker_fresh_witness :
    ∃ fs2, writeFileFS ⟨[[]], [(["f.md"], "x\ny\n")]⟩ ["f.md"] "TS" "BODY" = .ok fs2 ∧
      fs2.files.lookup ["f.md"] = some (metadataBlock "TS" ++ "BODY") :=
  writeFileFS_no_marker_fresh ⟨[[]], [(["f.md"], "x\ny\n")]⟩ ["f.md"] "x\ny\n" "TS" "BODY"
    (by decide) rfl (by decide)

/-! ### Claim C9: who creates parent directories -/

/-- C9 counterexample: _write_file performs no directory creation, so a
write to a path whose parent directory does not exist fails with
FileNotFoundError instead of succeeding. -/
theorem writeFileFS_missing_parent_cex :
    writeFileFS ⟨[[]], []⟩ ["sub", "f.md"] "TS" "BODY" = .error "FileNotFoundError" := rfl

/-- C9 amended: the write itself never creates a directory (the directory
set is unchanged by any successful write); it is the generator's
constructor that creates the configured output directory, with parents,
so a write to a path directly under the output directory succeeds. -/
theorem writeFileFS_dirs_from_init (fs : FileSystem) (outDir : List String)
    (name ts body : String) :
    (∃ fs2, writeFileFS (generatorInit outDir fs) (outDir ++ [name]) ts body = .ok fs2) ∧
    (∀ fs3 path ts2 body2 fs4,
      writeFileFS fs3 path ts2 body2 = .ok fs4 → fs4.dirs = fs3.dirs) := by
  constructor
  · have hmem : (outDir ++ [name]).dropLast ∈ (generatorInit outDir fs).dirs := by
      rw [List.dropLast_concat]
      show outDir ∈ (List.range (outDir.length + 1)).map (fun k => outDir.take k) ++ fs.dirs
      refine List.mem_append_left _ ?_
      refine List.mem_map.2 ⟨outDir.length, List.mem_range.2 (Nat.lt_succ_self _), ?_⟩
      exact List.take_length outDir
    have hstep : writeFileFS (generatorInit outDir fs) (outDir ++ [name]) ts body =
        .ok ⟨(generatorInit outDir fs).dirs,
          (outDir ++ [name],
            writeFileContent ((generatorInit outDir fs).files.lookup (outDir ++ [name])) ts body) ::
            (generatorInit outDir fs).files.filter (fun p => p.1 ≠ outDir ++ [name])⟩ := by
      unfold writeFileFS
      rw [if_pos hmem]
    exact ⟨_, hstep⟩
  · intro fs3 path ts2 body2 fs4 hok
    unfold writeFileFS at hok
    by_cases hd : path.dropLast ∈ fs3.dirs
    · rw [if_pos hd] at hok
      cases hok
      rfl
    · rw [if_neg hd] at hok
      cases hok

/-! ### Claim C3: batch semantics of generate_all -/

/-- C3 counterexample: when rendering the third document of the catalog
fails, generate_all stops there — only documents one and two are written,
the later documents are never attempted even though they would succeed. -/
theorem generate_all_aborts_cex :
    generate_all (fun d => d = "monitoring-requirements.md") =
      (["authentication-requirements.md", "authorization-requirements.md"],
        some "monitoring-requirements.md") ∧
    "deployment-architectures.md" ∉
      (generate_all (fun d => d = "monitoring-requirements.md")).1 ∧
    "performance-requirements.md" ∉
      (generate_all (fun d => d = "monitoring-requirements.md")).1 := by
  refine ⟨by decide, by decide, by decide⟩

/-- Sequential rendering writes exactly the longest failure-free prefix of
its document list and stops at the first failing document, if any. -/
theorem renderSeq_eq_takeWhile (failing : String → Bool) (l : List String) :
    renderSeq failing l =
      (l.takeWhile (fun d => ! failing d), (l.dropWhile (fun d => ! failing d)).head?) := by
  induction l with
  | nil => rfl
  | cons d ds ih =>
    by_cases hd : failing d = true
    · simp [renderSeq, hd, List.takeWhile_cons, List.dropWhile_cons]
    · simp only [Bool.not_eq_true] at hd
      simp [renderSeq, hd, List.takeWhile_cons, List.dropWhile_cons, ih]

/-- C3 amended: generate_all renders the catalog in its one fixed order,
but a failure aborts the batch at once: the documents written are exactly
those before the first failing one, the first failing document is the
reported error, and no failure list is accumulated. In particular when no
document fails the whole catalog is written in order. -/
theorem generate_all_fail_fast (failing : String → Bool) :
    generate_all failing =
      (docFilenames.takeWhile (fun d => ! failing d),
        (docFilenames.dropWhile (fun d => ! failing d)).head?) ∧
    generate_all (fun _ => false) = (docFilenames, none) := by
  constructor
  · exact renderSeq_eq_takeWhile failing docFilenames
  · decide

/-! ### Claim C5: liveness failure is fail-fast -/

/-- C5: when the list-tables liveness call fails for any reason, ensure
returns Failed(ServiceUnreachable) with the backend untouched — whatever
the describe and create calls would have answered, they are never
consulted — and the process exits with status 1. -/
theorem ensure_unreachable (b : Backend) (e : PyError) (h : b.listResp = .error e) :
    ensure b = (.failed .serviceUnreachable, b) ∧ mainExit b = 1 := by
  have h1 : ensure b = (.failed .serviceUnreachable, b) := by
    unfold ensure check_dynamodb_running
    rw [h]
    simp
  refine ⟨h1, ?_⟩
  unfold mainExit
  rw [h1]

/-- Witness for C5: a dead backend carrying injected describe and create
answers that are never looked at. -/
theorem ensure_unreachable_witness :
    ensure ⟨.error (.exc "connection refused"), true,
        some (.exc "boom"), some (.clientError "X" "y")⟩ =
      (.failed .serviceUnreachable,
        ⟨.error (.exc "connection refused"), true,
          some (.exc "boom"), some (.clientError "X" "y")⟩) ∧
    mainExit ⟨.error (.exc "connection refused"), true,
        some (.exc "boom"), some (.clientError "X" "y")⟩ = 1 :=
  ensure_unreachable
    ⟨.error (.exc "connection refused"), true, some (.exc "boom"), some (.clientError "X" "y")⟩
    (.exc "connection refused") rfl

/-! ### Claim C6: the existence check absorbs exactly two outcomes -/

/-- C6: table_exists turns a successful describe into True (leading to
AlreadyExists) and the specific ResourceNotFoundException into False
(leading to creation); every other ClientError code and every
non-ClientError exception is re-raised unchanged, and such a propagated
describe error makes the whole invocation fail. -/
theorem table_exists_two_outcomes (m m2 m3 : String) (c : String) (b bf : Backend)
    (hc : c ≠ "ResourceNotFoundException")
    (hb1 : b.listResp = .ok ()) (hb2 : b.describeFault = some (.clientError c m2))
    (hf1 : bf.listResp = .ok ()) (hf2 : bf.tableExists = true)
    (hf3 : bf.describeFault = none) :
    table_exists (.ok ()) = .ok true ∧
    table_exists (.error (.clientError "ResourceNotFoundException" m)) = .ok false ∧
    table_exists (.error (.clientError c m2)) = .error (.clientError c m2) ∧
    table_exists (.error (.exc m3)) = .error (.exc m3) ∧
    (ensure b).1 = .failed (.uncaught (.clientError c m2)) ∧
    (ensure bf).1 = .alreadyExists := by
  refine ⟨rfl, rfl, ?_, rfl, ?_, ?_⟩
  · show (if c = "ResourceNotFoundException" then Except.ok false
        else Except.error (PyError.clientError c m2)) = Except.error (PyError.clientError c m2)
    rw [if_neg hc]
  · unfold ensure check_dynamodb_running describeResp
    rw [hb1, hb2]
    simp [table_exists, hc]
  · unfold ensure check_dynamodb_running describeResp
    rw [hf1, hf3]
    simp [hf2, table_exists]

/-- Witness for C6 at concrete backends and errors. -/
theorem table_exists_two_outcomes_witness :
    table_exists (.ok ()) = .ok true ∧
    table_exists (.error (.clientError "ResourceNotFoundException" "nf")) = .ok false ∧
    table_exists (.error (.clientError "AccessDeniedException" "denied")) =
      .error (.clientError "AccessDeniedException" "denied") ∧
    table_exists (.error (.exc "broken pipe")) = .error (.exc "broken pipe") ∧
    (ensure ⟨.ok (), false, some (.clientError "AccessDeniedException" "denied"), none⟩).1 =
      .failed (.uncaught (.clientError "AccessDeniedException" "denied")) ∧
    (ensure ⟨.ok (), true, none, none⟩).1 = .alreadyExists :=
  table_exists_two_outcomes "nf" "denied" "broken pipe" "AccessDeniedException"
    ⟨.ok (), false, some (.clientError "AccessDeniedException" "denied"), none⟩
    ⟨.ok (), true, none, none⟩
    (by decide) rfl rfl rfl rfl rfl

/-! ### Claim C2: idempotent provisioning -/

/-- C2: against a live fresh backend ensure returns Created and flips the
table to existing; a second identical invocation then returns
AlreadyExists; and when the create call itself reports
ResourceInUseException (a concurrent provisioner won the race) the
invocation still succeeds with AlreadyExists rather than propagating a
conflict error. -/
theorem ensure_idempotent (b c : Backend) (m : String)
    (hb1 : b.listResp = .ok ()) (hb2 : b.tableExists = false)
    (hb3 : b.describeFault = none) (hb4 : b.createFault = none)
    (hc1 : c.listResp = .ok ()) (hc2 : c.tableExists = false)
    (hc3 : c.describeFault = none)
    (hc4 : c.createFault = some (.clientError "ResourceInUseException" m)) :
    (ensure b).1 = .created ∧
    (ensure (ensure b).2).1 = .alreadyExists ∧
    (ensure c).1 = .alreadyExists := by
  obtain ⟨bl, bt, bd, bc⟩ := b
  obtain ⟨cl, ct, cd, cc⟩ := c
  simp only at hb1 hb2 hb3 hb4 hc1 hc2 hc3 hc4
  subst hb1 hb2 hb3 hb4 hc1 hc2 hc3 hc4
  refine ⟨by decide, by decide, ?_⟩
  rfl

/-- Witness for C2: the fresh backend and the raced backend. -/
theorem ensure_idempotent_witness :
    (ensure ⟨.ok (), false, none, none⟩).1 = .created ∧
    (ensure (ensure ⟨.ok (), false, none, none⟩).2).1 = .alreadyExists ∧
    (ensure ⟨.ok (), false, none,
        some (.clientError "ResourceInUseException" "Table already exists")⟩).1 =
      .alreadyExists :=
  ensure_idempotent ⟨.ok (), false, none, none⟩
    ⟨.ok (), false, none, some (.clientError "ResourceInUseException" "Table already exists")⟩
    "Table already exists" rfl rfl rfl rfl rfl rfl rfl rfl

end ServiceFramework
